import Mathlib

/-!
Shallow embedding of extensions/universalchardet/src/base/JpCntx.cpp, the
Japanese context analyzer of the universal charset detector.  Byte buffers
are lists of natural numbers below 256; machine unsigned integers are
naturals (no operation here can reach 2^32 except the subtraction inside
GetConfidence, which is modelled with an explicit wrap); the float result
of GetConfidence is modelled as a rational number.
-/

/-- Number of frequency categories (declared in JpCntx.h, which is not part
of src).  Modelled from the spec: the histogram has six entries, indices
0 through 5. -/
def NUM_OF_CATEGORY : Nat := 6

/-- Modelled from the spec: MAX_REL_THRESHOLD is declared in JpCntx.h, which
is not part of src; the spec describes it only as a fixed upper bound on the
relation count after which the analyzer is done.  We fix it to 1000; none of
the general theorems below depend on its exact value. -/
def MAX_REL_THRESHOLD : Nat := 1000

/-- From JpCntx.cpp line 97; defined there and unused by the code in src. -/
def MINIMUM_DATA_THRESHOLD : Nat := 4

/-!
The hiragana 2-char sequence table from JpCntx.cpp lines 10-95: the value at
row a, column b is the frequency category of the ordered hiragana pair
(a, b).  Each of the 83 rows is transcribed verbatim from the corresponding
source line; the rows are separate definitions only to keep elaboration of
the 83 x 83 literal fast.
-/

def jp2CharContextRow0 : List Nat := [0,0,0,2,0,0,0,0,0,0,0,0,0,0,0,0,0,0,0,0,0,0,0,0,0,0,0,0,0,0,0,0,0,0,0,0,0,0,0,1,0,0,0,0,0,0,0,0,0,0,0,0,0,0,0,0,0,0,0,0,0,0,0,0,0,0,0,1,0,0,0,1,0,0,0,0,0,0,0,0,0,0,1]
def jp2CharContextRow1 : List Nat := [2,4,0,4,0,3,0,4,0,3,4,4,4,2,4,3,3,4,3,2,3,3,4,2,3,3,3,2,4,1,4,3,3,1,5,4,3,4,3,4,3,5,3,0,3,5,4,2,0,3,1,0,3,3,0,3,3,0,1,1,0,4,3,0,3,3,0,4,0,2,0,3,5,5,5,5,4,0,4,1,0,3,4]
def jp2CharContextRow2 : List Nat := [0,0,1,0,0,0,0,0,0,0,0,0,0,0,0,0,0,0,0,0,0,0,0,0,0,0,0,0,0,0,0,0,0,0,1,0,0,0,0,0,0,0,0,0,0,0,0,0,0,0,0,0,0,0,0,0,0,0,0,0,0,0,0,0,0,0,0,0,0,0,0,0,0,0,0,0,0,0,0,0,0,0,2]
def jp2CharContextRow3 : List Nat := [0,4,0,5,0,5,0,4,0,4,5,4,4,3,5,3,5,1,5,3,4,3,4,4,3,4,3,3,4,3,5,4,4,3,5,5,3,5,5,5,3,5,5,3,4,5,5,3,1,3,2,0,3,4,0,4,2,0,4,2,1,5,3,2,3,5,0,4,0,2,0,5,4,4,5,4,5,0,4,0,0,4,4]
def jp2CharContextRow4 : List Nat := [0,0,0,0,0,0,0,0,0,0,0,0,0,0,0,0,0,0,0,0,0,0,0,0,0,0,0,0,0,0,0,0,0,0,0,0,0,0,0,0,0,0,0,0,0,0,0,0,0,0,0,0,0,0,0,0,0,0,0,0,0,0,0,0,0,0,0,0,0,0,0,0,0,0,0,0,0,0,0,0,0,0,0]
def jp2CharContextRow5 : List Nat := [0,3,0,4,0,3,0,3,0,4,5,4,3,3,3,3,4,3,5,4,4,3,5,4,4,3,4,3,4,4,4,4,5,3,4,4,3,4,5,5,4,5,5,1,4,5,4,3,0,3,3,1,3,3,0,4,4,0,3,3,1,5,3,3,3,5,0,4,0,3,0,4,4,3,4,3,3,0,4,1,1,3,4]
def jp2CharContextRow6 : List Nat := [0,0,0,0,0,0,0,0,0,0,0,0,0,0,0,0,0,0,0,0,0,0,0,0,0,0,0,0,0,0,0,0,0,0,1,0,0,0,0,0,0,0,0,0,0,0,0,0,0,0,0,0,0,0,0,0,0,0,0,0,0,0,0,0,0,0,0,0,0,0,0,0,0,0,0,0,0,0,0,0,0,0,0]
def jp2CharContextRow7 : List Nat := [0,4,0,3,0,3,0,4,0,3,4,4,3,2,2,1,2,1,3,1,3,3,3,3,3,4,3,1,3,3,5,3,3,0,4,3,0,5,4,3,3,5,4,4,3,4,4,5,0,1,2,0,1,2,0,2,2,0,1,0,0,5,2,2,1,4,0,3,0,1,0,4,4,3,5,4,3,0,2,1,0,4,3]
def jp2CharContextRow8 : List Nat := [0,0,0,0,0,0,0,0,0,0,0,0,0,0,0,0,0,0,0,0,0,0,0,0,0,0,0,0,0,0,0,0,0,0,0,0,0,0,0,1,0,0,0,0,0,0,0,0,0,0,0,0,0,0,0,0,0,0,0,0,0,0,0,0,0,0,0,0,0,0,0,0,0,0,0,0,0,0,0,0,0,0,0]
def jp2CharContextRow9 : List Nat := [0,3,0,5,0,4,0,2,1,4,4,2,4,1,4,2,4,2,4,3,3,3,4,3,3,3,3,1,4,2,3,3,3,1,4,4,1,1,1,4,3,3,2,0,2,4,3,2,0,3,3,0,3,1,1,0,0,0,3,3,0,4,2,2,3,4,0,4,0,3,0,4,4,5,3,4,4,0,3,0,0,1,4]
def jp2CharContextRow10 : List Nat := [1,4,0,4,0,4,0,4,0,3,5,4,4,3,4,3,5,4,3,3,4,3,5,4,4,4,4,3,4,2,4,3,3,1,5,4,3,2,4,5,4,5,5,4,4,5,4,4,0,3,2,2,3,3,0,4,3,1,3,2,1,4,3,3,4,5,0,3,0,2,0,4,5,5,4,5,4,0,4,0,0,5,4]
def jp2CharContextRow11 : List Nat := [0,5,0,5,0,4,0,3,0,4,4,3,4,3,3,3,4,0,4,4,4,3,4,3,4,3,3,1,4,2,4,3,4,0,5,4,1,4,5,4,4,5,3,2,4,3,4,3,2,4,1,3,3,3,2,3,2,0,4,3,3,4,3,3,3,4,0,4,0,3,0,4,5,4,4,4,3,0,4,1,0,1,3]
def jp2CharContextRow12 : List Nat := [0,3,1,4,0,3,0,2,0,3,4,4,3,1,4,2,3,3,4,3,4,3,4,3,4,4,3,2,3,1,5,4,4,1,4,4,3,5,4,4,3,5,5,4,3,4,4,3,1,2,3,1,2,2,0,3,2,0,3,1,0,5,3,3,3,4,3,3,3,3,4,4,4,4,5,4,2,0,3,3,2,4,3]
def jp2CharContextRow13 : List Nat := [0,2,0,3,0,1,0,1,0,0,3,2,0,0,2,0,1,0,2,1,3,3,3,1,2,3,1,0,1,0,4,2,1,1,3,3,0,4,3,3,1,4,3,3,0,3,3,2,0,0,0,0,1,0,0,2,0,0,0,0,0,4,1,0,2,3,2,2,2,1,3,3,3,4,4,3,2,0,3,1,0,3,3]
def jp2CharContextRow14 : List Nat := [0,4,0,4,0,3,0,3,0,4,4,4,3,3,3,3,3,3,4,3,4,2,4,3,4,3,3,2,4,3,4,5,4,1,4,5,3,5,4,5,3,5,4,0,3,5,5,3,1,3,3,2,2,3,0,3,4,1,3,3,2,4,3,3,3,4,0,4,0,3,0,4,5,4,4,5,3,0,4,1,0,3,4]
def jp2CharContextRow15 : List Nat := [0,2,0,3,0,3,0,0,0,2,2,2,1,0,1,0,0,0,3,0,3,0,3,0,1,3,1,0,3,1,3,3,3,1,3,3,3,0,1,3,1,3,4,0,0,3,1,1,0,3,2,0,0,0,0,1,3,0,1,0,0,3,3,2,0,3,0,0,0,0,0,3,4,3,4,3,3,0,3,0,0,2,3]
def jp2CharContextRow16 : List Nat := [2,3,0,3,0,2,0,1,0,3,3,4,3,1,3,1,1,1,3,1,4,3,4,3,3,3,0,0,3,1,5,4,3,1,4,3,2,5,5,4,4,4,4,3,3,4,4,4,0,2,1,1,3,2,0,1,2,0,0,1,0,4,1,3,3,3,0,3,0,1,0,4,4,4,5,5,3,0,2,0,0,4,4]
def jp2CharContextRow17 : List Nat := [0,2,0,1,0,3,1,3,0,2,3,3,3,0,3,1,0,0,3,0,3,2,3,1,3,2,1,1,0,0,4,2,1,0,2,3,1,4,3,2,0,4,4,3,1,3,1,3,0,1,0,0,1,0,0,0,1,0,0,0,0,4,1,1,1,2,0,3,0,0,0,3,4,2,4,3,2,0,1,0,0,3,3]
def jp2CharContextRow18 : List Nat := [0,1,0,4,0,5,0,4,0,2,4,4,2,3,3,2,3,3,5,3,3,3,4,3,4,2,3,0,4,3,3,3,4,1,4,3,2,1,5,5,3,4,5,1,3,5,4,2,0,3,3,0,1,3,0,4,2,0,1,3,1,4,3,3,3,3,0,3,0,1,0,3,4,4,4,5,5,0,3,0,1,4,5]
def jp2CharContextRow19 : List Nat := [0,2,0,3,0,3,0,0,0,2,3,1,3,0,4,0,1,1,3,0,3,4,3,2,3,1,0,3,3,2,3,1,3,0,2,3,0,2,1,4,1,2,2,0,0,3,3,0,0,2,0,0,0,1,0,0,0,0,2,2,0,3,2,1,3,3,0,2,0,2,0,0,3,3,1,2,4,0,3,0,2,2,3]
def jp2CharContextRow20 : List Nat := [2,4,0,5,0,4,0,4,0,2,4,4,4,3,4,3,3,3,1,2,4,3,4,3,4,4,5,0,3,3,3,3,2,0,4,3,1,4,3,4,1,4,4,3,3,4,4,3,1,2,3,0,4,2,0,4,1,0,3,3,0,4,3,3,3,4,0,4,0,2,0,3,5,3,4,5,2,0,3,0,0,4,5]
def jp2CharContextRow21 : List Nat := [0,3,0,4,0,1,0,1,0,1,3,2,2,1,3,0,3,0,2,0,2,0,3,0,2,0,0,0,1,0,1,1,0,0,3,1,0,0,0,4,0,3,1,0,2,1,3,0,0,0,0,0,0,3,0,0,0,0,0,0,0,4,2,2,3,1,0,3,0,0,0,1,4,4,4,3,0,0,4,0,0,1,4]
def jp2CharContextRow22 : List Nat := [1,4,1,5,0,3,0,3,0,4,5,4,4,3,5,3,3,4,4,3,4,1,3,3,3,3,2,1,4,1,5,4,3,1,4,4,3,5,4,4,3,5,4,3,3,4,4,4,0,3,3,1,2,3,0,3,1,0,3,3,0,5,4,4,4,4,4,4,3,3,5,4,4,3,3,5,4,0,3,2,0,4,4]
def jp2CharContextRow23 : List Nat := [0,2,0,3,0,1,0,0,0,1,3,3,3,2,4,1,3,0,3,1,3,0,2,2,1,1,0,0,2,0,4,3,1,0,4,3,0,4,4,4,1,4,3,1,1,3,3,1,0,2,0,0,1,3,0,0,0,0,2,0,0,4,3,2,4,3,5,4,3,3,3,4,3,3,4,3,3,0,2,1,0,3,3]
def jp2CharContextRow24 : List Nat := [0,2,0,4,0,3,0,2,0,2,5,5,3,4,4,4,4,1,4,3,3,0,4,3,4,3,1,3,3,2,4,3,0,3,4,3,0,3,4,4,2,4,4,0,4,5,3,3,2,2,1,1,1,2,0,1,5,0,3,3,2,4,3,3,3,4,0,3,0,2,0,4,4,3,5,5,0,0,3,0,2,3,3]
def jp2CharContextRow25 : List Nat := [0,3,0,4,0,3,0,1,0,3,4,3,3,1,3,3,3,0,3,1,3,0,4,3,3,1,1,0,3,0,3,3,0,0,4,4,0,1,5,4,3,3,5,0,3,3,4,3,0,2,0,1,1,1,0,1,3,0,1,2,1,3,3,2,3,3,0,3,0,1,0,1,3,3,4,4,1,0,1,2,2,1,3]
def jp2CharContextRow26 : List Nat := [0,1,0,4,0,4,0,3,0,1,3,3,3,2,3,1,1,0,3,0,3,3,4,3,2,4,2,0,1,0,4,3,2,0,4,3,0,5,3,3,2,4,4,4,3,3,3,4,0,1,3,0,0,1,0,0,1,0,0,0,0,4,2,3,3,3,0,3,0,0,0,4,4,4,5,3,2,0,3,3,0,3,5]
def jp2CharContextRow27 : List Nat := [0,2,0,3,0,0,0,3,0,1,3,0,2,0,0,0,1,0,3,1,1,3,3,0,0,3,0,0,3,0,2,3,1,0,3,1,0,3,3,2,0,4,2,2,0,2,0,0,0,4,0,0,0,0,0,0,0,0,0,0,0,2,1,2,0,1,0,1,0,0,0,1,3,1,2,0,0,0,1,0,0,1,4]
def jp2CharContextRow28 : List Nat := [0,3,0,3,0,5,0,1,0,2,4,3,1,3,3,2,1,1,5,2,1,0,5,1,2,0,0,0,3,3,2,2,3,2,4,3,0,0,3,3,1,3,3,0,2,5,3,4,0,3,3,0,1,2,0,2,2,0,3,2,0,2,2,3,3,3,0,2,0,1,0,3,4,4,2,5,4,0,3,0,0,3,5]
def jp2CharContextRow29 : List Nat := [0,3,0,3,0,3,0,1,0,3,3,3,3,0,3,0,2,0,2,1,1,0,2,0,1,0,0,0,2,1,0,0,1,0,3,2,0,0,3,3,1,2,3,1,0,3,3,0,0,1,0,0,0,0,0,2,0,0,0,0,0,2,3,1,2,3,0,3,0,1,0,3,2,1,0,4,3,0,1,1,0,3,3]
def jp2CharContextRow30 : List Nat := [0,4,0,5,0,3,0,3,0,4,5,5,4,3,5,3,4,3,5,3,3,2,5,3,4,4,4,3,4,3,4,5,5,3,4,4,3,4,4,5,4,4,4,3,4,5,5,4,2,3,4,2,3,4,0,3,3,1,4,3,2,4,3,3,5,5,0,3,0,3,0,5,5,5,5,4,4,0,4,0,1,4,4]
def jp2CharContextRow31 : List Nat := [0,4,0,4,0,3,0,3,0,3,5,4,4,2,3,2,5,1,3,2,5,1,4,2,3,2,3,3,4,3,3,3,3,2,5,4,1,3,3,5,3,4,4,0,4,4,3,1,1,3,1,0,2,3,0,2,3,0,3,0,0,4,3,1,3,4,0,3,0,2,0,4,4,4,3,4,5,0,4,0,0,3,4]
def jp2CharContextRow32 : List Nat := [0,3,0,3,0,3,1,2,0,3,4,4,3,3,3,0,2,2,4,3,3,1,3,3,3,1,1,0,3,1,4,3,2,3,4,4,2,4,4,4,3,4,4,3,2,4,4,3,1,3,3,1,3,3,0,4,1,0,2,2,1,4,3,2,3,3,5,4,3,3,5,4,4,3,3,0,4,0,3,2,2,4,4]
def jp2CharContextRow33 : List Nat := [0,2,0,1,0,0,0,0,0,1,2,1,3,0,0,0,0,0,2,0,1,2,1,0,0,1,0,0,0,0,3,0,0,1,0,1,1,3,1,0,0,0,1,1,0,1,1,0,0,0,0,0,2,0,0,0,0,0,0,0,0,1,1,2,2,0,3,4,0,0,0,1,1,0,0,1,0,0,0,0,0,1,1]
def jp2CharContextRow34 : List Nat := [0,1,0,0,0,1,0,0,0,0,4,0,4,1,4,0,3,0,4,0,3,0,4,0,3,0,3,0,4,1,5,1,4,0,0,3,0,5,0,5,2,0,1,0,0,0,2,1,4,0,1,3,0,0,3,0,0,3,1,1,4,1,0,0,0,0,0,0,0,0,0,0,0,0,1,0,0,0,0,0,0,0,0]
def jp2CharContextRow35 : List Nat := [1,4,0,5,0,3,0,2,0,3,5,4,4,3,4,3,5,3,4,3,3,0,4,3,3,3,3,3,3,2,4,4,3,1,3,4,4,5,4,4,3,4,4,1,3,5,4,3,3,3,1,2,2,3,3,1,3,1,3,3,3,5,3,3,4,5,0,3,0,3,0,3,4,3,4,4,3,0,3,0,2,4,3]
def jp2CharContextRow36 : List Nat := [0,1,0,4,0,0,0,0,0,1,4,0,4,1,4,2,4,0,3,0,1,0,1,0,0,0,0,0,2,0,3,1,1,1,0,3,0,0,0,1,2,1,0,0,1,1,1,1,0,1,0,0,0,1,0,0,3,0,0,0,0,3,2,0,2,2,0,1,0,0,0,2,3,2,3,3,0,0,0,0,2,1,0]
def jp2CharContextRow37 : List Nat := [0,5,1,5,0,3,0,3,0,5,4,4,5,1,5,3,3,0,4,3,4,3,5,3,4,3,3,2,4,3,4,3,3,0,3,3,1,4,4,3,4,4,4,3,4,5,5,3,2,3,1,1,3,3,1,3,1,1,3,3,2,4,5,3,3,5,0,4,0,3,0,4,4,3,5,3,3,0,3,4,0,4,3]
def jp2CharContextRow38 : List Nat := [0,5,0,5,0,3,0,2,0,4,4,3,5,2,4,3,3,3,4,4,4,3,5,3,5,3,3,1,4,0,4,3,3,0,3,3,0,4,4,4,4,5,4,3,3,5,5,3,2,3,1,2,3,2,0,1,0,0,3,2,2,4,4,3,1,5,0,4,0,3,0,4,3,1,3,2,1,0,3,3,0,3,3]
def jp2CharContextRow39 : List Nat := [0,4,0,5,0,5,0,4,0,4,5,5,5,3,4,3,3,2,5,4,4,3,5,3,5,3,4,0,4,3,4,4,3,2,4,4,3,4,5,4,4,5,5,0,3,5,5,4,1,3,3,2,3,3,1,3,1,0,4,3,1,4,4,3,4,5,0,4,0,2,0,4,3,4,4,3,3,0,4,0,0,5,5]
def jp2CharContextRow40 : List Nat := [0,4,0,4,0,5,0,1,1,3,3,4,4,3,4,1,3,0,5,1,3,0,3,1,3,1,1,0,3,0,3,3,4,0,4,3,0,4,4,4,3,4,4,0,3,5,4,1,0,3,0,0,2,3,0,3,1,0,3,1,0,3,2,1,3,5,0,3,0,1,0,3,2,3,3,4,4,0,2,2,0,4,4]
def jp2CharContextRow41 : List Nat := [2,4,0,5,0,4,0,3,0,4,5,5,4,3,5,3,5,3,5,3,5,2,5,3,4,3,3,4,3,4,5,3,2,1,5,4,3,2,3,4,5,3,4,1,2,5,4,3,0,3,3,0,3,2,0,2,3,0,4,1,0,3,4,3,3,5,0,3,0,1,0,4,5,5,5,4,3,0,4,2,0,3,5]
def jp2CharContextRow42 : List Nat := [0,5,0,4,0,4,0,2,0,5,4,3,4,3,4,3,3,3,4,3,4,2,5,3,5,3,4,1,4,3,4,4,4,0,3,5,0,4,4,4,4,5,3,1,3,4,5,3,3,3,3,3,3,3,0,2,2,0,3,3,2,4,3,3,3,5,3,4,1,3,3,5,3,2,0,0,0,0,4,3,1,3,3]
def jp2CharContextRow43 : List Nat := [0,1,0,3,0,3,0,1,0,1,3,3,3,2,3,3,3,0,3,0,0,0,3,1,3,0,0,0,2,2,2,3,0,0,3,2,0,1,2,4,1,3,3,0,0,3,3,3,0,1,0,0,2,1,0,0,3,0,3,1,0,3,0,0,1,3,0,2,0,1,0,3,3,1,3,3,0,0,1,1,0,3,3]
def jp2CharContextRow44 : List Nat := [0,2,0,3,0,2,1,4,0,2,2,3,1,1,3,1,1,0,2,0,3,1,2,3,1,3,0,0,1,0,4,3,2,3,3,3,1,4,2,3,3,3,3,1,0,3,1,4,0,1,1,0,1,2,0,1,1,0,1,1,0,3,1,3,2,2,0,1,0,0,0,2,3,3,3,1,0,0,0,0,0,2,3]
def jp2CharContextRow45 : List Nat := [0,5,0,4,0,5,0,2,0,4,5,5,3,3,4,3,3,1,5,4,4,2,4,4,4,3,4,2,4,3,5,5,4,3,3,4,3,3,5,5,4,5,5,1,3,4,5,3,1,4,3,1,3,3,0,3,3,1,4,3,1,4,5,3,3,5,0,4,0,3,0,5,3,3,1,4,3,0,4,0,1,5,3]
def jp2CharContextRow46 : List Nat := [0,5,0,5,0,4,0,2,0,4,4,3,4,3,3,3,3,3,5,4,4,4,4,4,4,5,3,3,5,2,4,4,4,3,4,4,3,3,4,4,5,5,3,3,4,3,4,3,3,4,3,3,3,3,1,2,2,1,4,3,3,5,4,4,3,4,0,4,0,3,0,4,4,4,4,4,1,0,4,2,0,2,4]
def jp2CharContextRow47 : List Nat := [0,4,0,4,0,3,0,1,0,3,5,2,3,0,3,0,2,1,4,2,3,3,4,1,4,3,3,2,4,1,3,3,3,0,3,3,0,0,3,3,3,5,3,3,3,3,3,2,0,2,0,0,2,0,0,2,0,0,1,0,0,3,1,2,2,3,0,3,0,2,0,4,4,3,3,4,1,0,3,0,0,2,4]
def jp2CharContextRow48 : List Nat := [0,0,0,4,0,0,0,0,0,0,1,0,1,0,2,0,0,0,0,0,1,0,2,0,1,0,0,0,0,0,3,1,3,0,3,2,0,0,0,1,0,3,2,0,0,2,0,0,0,0,0,0,0,0,0,0,0,0,0,0,0,0,0,0,0,0,0,0,0,0,0,0,3,4,0,2,0,0,0,0,0,0,2]
def jp2CharContextRow49 : List Nat := [0,2,1,3,0,2,0,2,0,3,3,3,3,1,3,1,3,3,3,3,3,3,4,2,2,1,2,1,4,0,4,3,1,3,3,3,2,4,3,5,4,3,3,3,3,3,3,3,0,1,3,0,2,0,0,1,0,0,1,0,0,4,2,0,2,3,0,3,3,0,3,3,4,2,3,1,4,0,1,2,0,2,3]
def jp2CharContextRow50 : List Nat := [0,3,0,3,0,1,0,3,0,2,3,3,3,0,3,1,2,0,3,3,2,3,3,2,3,2,3,1,3,0,4,3,2,0,3,3,1,4,3,3,2,3,4,3,1,3,3,1,1,0,1,1,0,1,0,1,0,1,0,0,0,4,1,1,0,3,0,3,1,0,2,3,3,3,3,3,1,0,0,2,0,3,3]
def jp2CharContextRow51 : List Nat := [0,0,0,0,0,0,0,0,0,0,3,0,2,0,3,0,0,0,0,0,0,0,3,0,0,0,0,0,0,0,3,0,3,0,3,1,0,1,0,1,0,0,1,0,0,0,0,0,0,0,0,0,0,0,0,0,0,0,0,0,0,0,0,0,0,0,0,0,3,0,2,0,2,3,0,0,0,0,0,0,0,0,3]
def jp2CharContextRow52 : List Nat := [0,2,0,3,1,3,0,3,0,2,3,3,3,1,3,1,3,1,3,1,3,3,3,1,3,0,2,3,1,1,4,3,3,2,3,3,1,2,2,4,1,3,3,0,1,4,2,3,0,1,3,0,3,0,0,1,3,0,2,0,0,3,3,2,1,3,0,3,0,2,0,3,4,4,4,3,1,0,3,0,0,3,3]
def jp2CharContextRow53 : List Nat := [0,2,0,1,0,2,0,0,0,1,3,2,2,1,3,0,1,1,3,0,3,2,3,1,2,0,2,0,1,1,3,3,3,0,3,3,1,1,2,3,2,3,3,1,2,3,2,0,0,1,0,0,0,0,0,0,3,0,1,0,0,2,1,2,1,3,0,3,0,0,0,3,4,4,4,3,2,0,2,0,0,2,4]
def jp2CharContextRow54 : List Nat := [0,0,0,1,0,1,0,0,0,0,1,0,0,0,1,0,0,0,0,0,0,0,1,1,1,0,0,0,0,0,0,0,0,0,2,2,0,0,0,1,0,0,0,0,0,0,0,0,0,0,0,0,0,0,0,0,0,0,0,0,0,0,0,0,0,0,0,1,0,0,0,0,1,3,1,0,0,0,0,0,0,0,3]
def jp2CharContextRow55 : List Nat := [0,3,0,3,0,2,0,3,0,3,3,3,2,3,2,2,2,0,3,1,3,3,3,2,3,3,0,0,3,0,3,2,2,0,2,3,1,4,3,4,3,3,2,3,1,5,4,4,0,3,1,2,1,3,0,3,1,1,2,0,2,3,1,3,1,3,0,3,0,1,0,3,3,4,4,2,1,0,2,1,0,2,4]
def jp2CharContextRow56 : List Nat := [0,1,0,3,0,1,0,2,0,1,4,2,5,1,4,0,2,0,2,1,3,1,4,0,2,1,0,0,2,1,4,1,1,0,3,3,0,5,1,3,2,3,3,1,0,3,2,3,0,1,0,0,0,0,0,0,1,0,0,0,0,4,0,1,0,3,0,2,0,1,0,3,3,3,4,3,3,0,0,0,0,2,3]
def jp2CharContextRow57 : List Nat := [0,0,0,1,0,0,0,0,0,0,2,0,1,0,0,0,0,0,1,0,0,0,0,0,0,0,0,0,0,0,3,0,0,0,0,0,0,1,0,0,0,0,0,0,0,0,0,0,0,0,0,0,0,0,0,0,0,0,0,0,0,0,0,0,0,0,0,0,0,0,0,0,2,1,0,0,1,0,0,0,0,0,3]
def jp2CharContextRow58 : List Nat := [0,1,0,3,0,4,0,3,0,2,4,3,1,0,3,2,2,1,3,1,2,2,3,1,1,1,2,1,3,0,1,2,0,1,3,2,1,3,0,5,5,1,0,0,1,3,2,1,0,3,0,0,1,0,0,0,0,0,3,4,0,1,1,1,3,2,0,2,0,1,0,2,3,3,1,2,3,0,1,0,1,0,4]
def jp2CharContextRow59 : List Nat := [0,0,0,1,0,3,0,3,0,2,2,1,0,0,4,0,3,0,3,1,3,0,3,0,3,0,1,0,3,0,3,1,3,0,3,3,0,0,1,2,1,1,1,0,1,2,0,0,0,1,0,0,1,0,0,0,0,0,0,0,0,2,2,1,2,0,0,2,0,0,0,0,2,3,3,3,3,0,0,0,0,1,4]
def jp2CharContextRow60 : List Nat := [0,0,0,3,0,3,0,0,0,0,3,1,1,0,3,0,1,0,2,0,1,0,0,0,0,0,0,0,1,0,3,0,2,0,2,3,0,0,2,2,3,1,2,0,0,1,0,0,0,0,0,0,0,0,0,1,0,0,0,0,0,0,0,0,0,0,0,0,0,0,0,0,0,3,0,0,2,0,0,0,0,2,3]
def jp2CharContextRow61 : List Nat := [2,4,0,5,0,5,0,4,0,3,4,3,3,3,4,3,3,3,4,3,4,4,5,4,5,5,5,2,3,0,5,5,4,1,5,4,3,1,5,4,3,4,4,3,3,4,3,3,0,3,2,0,2,3,0,3,0,0,3,3,0,5,3,2,3,3,0,3,0,3,0,3,4,5,4,5,3,0,4,3,0,3,4]
def jp2CharContextRow62 : List Nat := [0,3,0,3,0,3,0,3,0,3,3,4,3,2,3,2,3,0,4,3,3,3,3,3,3,3,3,0,3,2,4,3,3,1,3,4,3,4,4,4,3,4,4,3,2,4,4,1,0,2,0,0,1,1,0,2,0,0,3,1,0,5,3,2,1,3,0,3,0,1,2,4,3,2,4,3,3,0,3,2,0,4,4]
def jp2CharContextRow63 : List Nat := [0,3,0,3,0,1,0,0,0,1,4,3,3,2,3,1,3,1,4,2,3,2,4,2,3,4,3,0,2,2,3,3,3,0,3,3,3,0,3,4,1,3,3,0,3,4,3,3,0,1,1,0,1,0,0,0,4,0,3,0,0,3,1,2,1,3,0,4,0,1,0,4,3,3,4,3,3,0,2,0,0,3,3]
def jp2CharContextRow64 : List Nat := [0,3,0,4,0,1,0,3,0,3,4,3,3,0,3,3,3,1,3,1,3,3,4,3,3,3,0,0,3,1,5,3,3,1,3,3,2,5,4,3,3,4,5,3,2,5,3,4,0,1,0,0,0,0,0,2,0,0,1,1,0,4,2,2,1,3,0,3,0,2,0,4,4,3,5,3,2,0,1,1,0,3,4]
def jp2CharContextRow65 : List Nat := [0,5,0,4,0,5,0,2,0,4,4,3,3,2,3,3,3,1,4,3,4,1,5,3,4,3,4,0,4,2,4,3,4,1,5,4,0,4,4,4,4,5,4,1,3,5,4,2,1,4,1,1,3,2,0,3,1,0,3,2,1,4,3,3,3,4,0,4,0,3,0,4,4,4,3,3,3,0,4,2,0,3,4]
def jp2CharContextRow66 : List Nat := [1,4,0,4,0,3,0,1,0,3,3,3,1,1,3,3,2,2,3,3,1,0,3,2,2,1,2,0,3,1,2,1,2,0,3,2,0,2,2,3,3,4,3,0,3,3,1,2,0,1,1,3,1,2,0,0,3,0,1,1,0,3,2,2,3,3,0,3,0,0,0,2,3,3,4,3,3,0,1,0,0,1,4]
def jp2CharContextRow67 : List Nat := [0,4,0,4,0,4,0,0,0,3,4,4,3,1,4,2,3,2,3,3,3,1,4,3,4,0,3,0,4,2,3,3,2,2,5,4,2,1,3,4,3,4,3,1,3,3,4,2,0,2,1,0,3,3,0,0,2,0,3,1,0,4,4,3,4,3,0,4,0,1,0,2,4,4,4,4,4,0,3,2,0,3,3]
def jp2CharContextRow68 : List Nat := [0,0,0,1,0,4,0,0,0,0,0,0,1,1,1,0,0,0,0,0,0,0,0,0,1,0,0,0,0,0,0,0,1,0,3,2,0,0,1,0,0,0,1,0,0,0,0,0,0,1,0,0,0,0,0,0,0,0,0,0,0,0,0,0,0,0,0,0,0,0,0,0,0,0,0,0,1,0,0,0,0,0,2]
def jp2CharContextRow69 : List Nat := [0,2,0,3,0,4,0,4,0,1,3,3,3,0,4,0,2,1,2,1,1,1,2,0,3,1,1,0,1,0,3,1,0,0,3,3,2,0,1,1,0,0,0,0,0,1,0,2,0,2,2,0,3,1,0,0,1,0,1,1,0,1,2,0,3,0,0,0,0,1,0,0,3,3,4,3,1,0,1,0,3,0,2]
def jp2CharContextRow70 : List Nat := [0,0,0,3,0,5,0,0,0,0,1,0,2,0,3,1,0,1,3,0,0,0,2,0,0,0,1,0,0,0,1,1,0,0,4,0,0,0,2,3,0,1,4,1,0,2,0,0,0,0,0,0,0,0,0,0,0,0,0,3,0,0,0,0,0,1,0,0,0,0,0,0,0,2,0,0,3,0,0,0,0,0,3]
def jp2CharContextRow71 : List Nat := [0,2,0,5,0,5,0,1,0,2,4,3,3,2,5,1,3,2,3,3,3,0,4,1,2,0,3,0,4,0,2,2,1,1,5,3,0,0,1,4,2,3,2,0,3,3,3,2,0,2,4,1,1,2,0,1,1,0,3,1,0,1,3,1,2,3,0,2,0,0,0,1,3,5,4,4,4,0,3,0,0,1,3]
def jp2CharContextRow72 : List Nat := [0,4,0,5,0,4,0,4,0,4,5,4,3,3,4,3,3,3,4,3,4,4,5,3,4,5,4,2,4,2,3,4,3,1,4,4,1,3,5,4,4,5,5,4,4,5,5,5,2,3,3,1,4,3,1,3,3,0,3,3,1,4,3,4,4,4,0,3,0,4,0,3,3,4,4,5,0,0,4,3,0,4,5]
def jp2CharContextRow73 : List Nat := [0,4,0,4,0,3,0,3,0,3,4,4,4,3,3,2,4,3,4,3,4,3,5,3,4,3,2,1,4,2,4,4,3,1,3,4,2,4,5,5,3,4,5,4,1,5,4,3,0,3,2,2,3,2,1,3,1,0,3,3,3,5,3,3,3,5,4,4,2,3,3,4,3,3,3,2,1,0,3,2,1,4,3]
def jp2CharContextRow74 : List Nat := [0,4,0,5,0,4,0,3,0,3,5,5,3,2,4,3,4,0,5,4,4,1,4,4,4,3,3,3,4,3,5,5,2,3,3,4,1,2,5,5,3,5,5,2,3,5,5,4,0,3,2,0,3,3,1,1,5,1,4,1,0,4,3,2,3,5,0,4,0,3,0,5,4,3,4,3,0,0,4,1,0,4,4]
def jp2CharContextRow75 : List Nat := [1,3,0,4,0,2,0,2,0,2,5,5,3,3,3,3,3,0,4,2,3,4,4,4,3,4,0,0,3,4,5,4,3,3,3,3,2,5,5,4,5,5,5,4,3,5,5,5,1,3,1,0,1,0,0,3,2,0,4,2,0,5,2,3,2,4,1,3,0,3,0,4,5,4,5,4,3,0,4,2,0,5,4]
def jp2CharContextRow76 : List Nat := [0,3,0,4,0,5,0,3,0,3,4,4,3,2,3,2,3,3,3,3,3,2,4,3,3,2,2,0,3,3,3,3,3,1,3,3,3,0,4,4,3,4,4,1,1,4,4,2,0,3,1,0,1,1,0,4,1,0,2,3,1,3,3,1,3,4,0,3,0,1,0,3,1,3,0,0,1,0,2,0,0,4,4]
def jp2CharContextRow77 : List Nat := [0,0,0,0,0,0,0,0,0,0,0,0,0,0,0,0,0,0,0,0,0,0,0,0,0,0,0,0,0,0,0,0,0,0,0,0,0,0,0,0,0,0,0,0,0,0,0,0,0,0,0,0,0,0,0,0,0,0,0,0,0,0,0,0,0,0,0,0,0,0,0,0,0,0,0,0,0,0,0,0,0,0,0]
def jp2CharContextRow78 : List Nat := [0,3,0,3,0,2,0,3,0,1,5,4,3,3,3,1,4,2,1,2,3,4,4,2,4,4,5,0,3,1,4,3,4,0,4,3,3,3,2,3,2,5,3,4,3,2,2,3,0,0,3,0,2,1,0,1,2,0,0,0,0,2,1,1,3,1,0,2,0,4,0,3,4,4,4,5,2,0,2,0,0,1,3]
def jp2CharContextRow79 : List Nat := [0,0,0,0,0,0,0,0,0,0,0,0,0,0,1,0,0,0,0,0,1,1,1,0,0,1,1,0,0,0,4,2,1,1,0,1,0,3,2,0,0,3,1,1,1,2,2,0,0,0,0,0,0,0,0,0,0,0,0,0,0,3,0,1,0,0,0,2,0,0,0,1,4,0,4,2,1,0,0,0,0,0,1]
def jp2CharContextRow80 : List Nat := [0,0,0,0,0,0,0,0,0,1,0,1,0,0,0,0,1,0,0,0,0,0,0,1,0,1,0,0,0,0,3,1,0,0,0,2,0,2,1,0,0,1,2,1,0,1,1,0,0,3,0,0,0,0,0,0,0,0,0,0,0,1,3,1,0,0,0,0,0,1,0,0,2,1,0,0,0,0,0,0,0,0,2]
def jp2CharContextRow81 : List Nat := [0,4,0,4,0,4,0,3,0,4,4,3,4,2,4,3,2,0,4,4,4,3,5,3,5,3,3,2,4,2,4,3,4,3,1,4,0,2,3,4,4,4,3,3,3,4,4,4,3,4,1,3,4,3,2,1,2,1,3,3,3,4,4,3,3,5,0,4,0,3,0,4,3,3,3,2,1,0,3,0,0,3,3]
def jp2CharContextRow82 : List Nat := [0,4,0,3,0,3,0,3,0,3,5,5,3,3,3,3,4,3,4,3,3,3,4,4,4,3,3,3,3,4,3,5,3,3,1,3,2,4,5,5,5,5,4,3,4,5,5,3,2,2,3,3,3,3,2,3,3,1,2,3,2,4,3,3,3,4,0,4,0,2,0,4,3,2,2,1,2,0,3,0,0,4,1]

/-- The full table, rows in source order. -/
def jp2CharContext : List (List Nat) := [
  jp2CharContextRow0, jp2CharContextRow1, jp2CharContextRow2, jp2CharContextRow3, jp2CharContextRow4, jp2CharContextRow5, jp2CharContextRow6, jp2CharContextRow7,
  jp2CharContextRow8, jp2CharContextRow9, jp2CharContextRow10, jp2CharContextRow11, jp2CharContextRow12, jp2CharContextRow13, jp2CharContextRow14, jp2CharContextRow15,
  jp2CharContextRow16, jp2CharContextRow17, jp2CharContextRow18, jp2CharContextRow19, jp2CharContextRow20, jp2CharContextRow21, jp2CharContextRow22, jp2CharContextRow23,
  jp2CharContextRow24, jp2CharContextRow25, jp2CharContextRow26, jp2CharContextRow27, jp2CharContextRow28, jp2CharContextRow29, jp2CharContextRow30, jp2CharContextRow31,
  jp2CharContextRow32, jp2CharContextRow33, jp2CharContextRow34, jp2CharContextRow35, jp2CharContextRow36, jp2CharContextRow37, jp2CharContextRow38, jp2CharContextRow39,
  jp2CharContextRow40, jp2CharContextRow41, jp2CharContextRow42, jp2CharContextRow43, jp2CharContextRow44, jp2CharContextRow45, jp2CharContextRow46, jp2CharContextRow47,
  jp2CharContextRow48, jp2CharContextRow49, jp2CharContextRow50, jp2CharContextRow51, jp2CharContextRow52, jp2CharContextRow53, jp2CharContextRow54, jp2CharContextRow55,
  jp2CharContextRow56, jp2CharContextRow57, jp2CharContextRow58, jp2CharContextRow59, jp2CharContextRow60, jp2CharContextRow61, jp2CharContextRow62, jp2CharContextRow63,
  jp2CharContextRow64, jp2CharContextRow65, jp2CharContextRow66, jp2CharContextRow67, jp2CharContextRow68, jp2CharContextRow69, jp2CharContextRow70, jp2CharContextRow71,
  jp2CharContextRow72, jp2CharContextRow73, jp2CharContextRow74, jp2CharContextRow75, jp2CharContextRow76, jp2CharContextRow77, jp2CharContextRow78, jp2CharContextRow79,
  jp2CharContextRow80, jp2CharContextRow81, jp2CharContextRow82]

/-- Reading byte i of a buffer, as the C code reads aBuf[i] through a pointer.
Out-of-range reads (which in C would be undefined) return 0; in every code
path below that actually uses the value, the read is in range. -/
def getByte (buf : List Nat) (i : Nat) : Nat := buf.getD i 0

namespace SJISContextAnalysis

/-- Embedding of SJISContextAnalysis::GetOrder (JpCntx.cpp lines 163-178):
returns (order, charLen) for the character starting at byte i of str. -/
def GetOrder (str : List Nat) (i : Nat) : Int × Nat :=
  let charLen : Nat :=
    if (0x81 ≤ getByte str i ∧ getByte str i ≤ 0x9f) ∨
       (0xe0 ≤ getByte str i ∧ getByte str i ≤ 0xfc) then 2 else 1
  let order : Int :=
    if getByte str i = 0x82 ∧ 0x9f ≤ getByte str (i+1) ∧ getByte str (i+1) ≤ 0xf1 then
      (getByte str (i+1) : Int) - 0x9f
    else -1
  (order, charLen)

/-- SJISContextAnalysis::GetOrder with byte reads made explicit as Option
lookups: the function returns none exactly when it dereferences a byte that
is out of bounds.  The second byte is read only when the first byte equals
0x82, mirroring the short-circuit evaluation in the C condition. -/
def GetOrderOpt (str : List Nat) (i : Nat) : Option (Int × Nat) :=
  match str.get? i with
  | none => none
  | some b0 =>
    let charLen : Nat :=
      if (0x81 ≤ b0 ∧ b0 ≤ 0x9f) ∨ (0xe0 ≤ b0 ∧ b0 ≤ 0xfc) then 2 else 1
    if b0 = 0x82 then
      match str.get? (i+1) with
      | none => none
      | some b1 =>
        some (if 0x9f ≤ b1 ∧ b1 ≤ 0xf1 then (b1 : Int) - 0x9f else -1, charLen)
    else
      some (-1, charLen)

end SJISContextAnalysis

namespace EUCJPContextAnalysis

/-- Embedding of EUCJPContextAnalysis::GetOrder (JpCntx.cpp lines 180-198). -/
def GetOrder (str : List Nat) (i : Nat) : Int × Nat :=
  let charLen : Nat :=
    if getByte str i = 0x8e ∨ (0xa1 ≤ getByte str i ∧ getByte str i ≤ 0xfe) then 2
    else if getByte str i = 0x8f then 3
    else 1
  let order : Int :=
    if getByte str i = 0xa4 ∧ 0xa1 ≤ getByte str (i+1) ∧ getByte str (i+1) ≤ 0xf3 then
      (getByte str (i+1) : Int) - 0xa1
    else -1
  (order, charLen)

/-- EUCJPContextAnalysis::GetOrder with byte reads made explicit as Option
lookups; the second byte is read only when the first byte equals 0xa4,
mirroring the short-circuit evaluation in the C condition. -/
def GetOrderOpt (str : List Nat) (i : Nat) : Option (Int × Nat) :=
  match str.get? i with
  | none => none
  | some b0 =>
    let charLen : Nat :=
      if b0 = 0x8e ∨ (0xa1 ≤ b0 ∧ b0 ≤ 0xfe) then 2
      else if b0 = 0x8f then 3
      else 1
    if b0 = 0xa4 then
      match str.get? (i+1) with
      | none => none
      | some b1 =>
        some (if 0xa1 ≤ b1 ∧ b1 ≤ 0xf3 then (b1 : Int) - 0xa1 else -1, charLen)
    else
      some (-1, charLen)

end EUCJPContextAnalysis

/-- State of JapaneseContextAnalysis (fields declared in JpCntx.h, which is
not part of src; their names, types and roles are fixed by their uses in
JpCntx.cpp): mRelSample is the six-entry category histogram, mTotalRel the
relation count, mNeedToSkipCharNum the number of bytes to skip at the start
of the next chunk, mLastCharOrder the order of the previous character or -1,
mDone the terminal flag, mDataThreshold the confidence threshold. -/
structure JapaneseContextAnalysis where
  mTotalRel : Nat
  mRelSample : List Nat
  mNeedToSkipCharNum : Nat
  mLastCharOrder : Int
  mDone : Bool
  mDataThreshold : Nat
deriving DecidableEq

/-- Embedding of mRelSample[k]++: increment entry k of the histogram list. -/
def incAt (l : List Nat) (k : Nat) : List Nat := l.set k (l.getD k 0 + 1)

/-- Embedding of jp2CharContext[a][b] with the int32 indices a and b; in
every code path that performs this lookup both indices are nonnegative. -/
def tableAt (a b : Int) : Nat := (jp2CharContext.getD a.toNat []).getD b.toNat 0

/-- The for loop of JapaneseContextAnalysis::HandleData (JpCntx.cpp lines
114-136), parametrised by the virtual GetOrder of the concrete subclass.
The loop is embedded with a fuel argument to make it structurally
recursive; every iteration with i < aLen advances i by the returned charLen,
which is at least 1 for both decoders, so fuel = aLen (the value HandleData
passes) never runs out before the loop condition i < aLen fails. -/
def HandleDataLoop (getOrd : List Nat → Nat → Int × Nat) (aBuf : List Nat) (aLen : Nat) :
    Nat → JapaneseContextAnalysis → Nat → JapaneseContextAnalysis
  | 0, st, _ => st
  | fuel+1, st, i =>
    if i < aLen then
      if i + (getOrd aBuf i).2 > aLen then
        HandleDataLoop getOrd aBuf aLen fuel
          { st with
              mNeedToSkipCharNum := i + (getOrd aBuf i).2 - aLen
              mLastCharOrder := -1 }
          (i + (getOrd aBuf i).2)
      else if (getOrd aBuf i).1 ≠ -1 ∧ st.mLastCharOrder ≠ -1 then
        if st.mTotalRel + 1 > MAX_REL_THRESHOLD then
          { st with mTotalRel := st.mTotalRel + 1, mDone := true }
        else
          HandleDataLoop getOrd aBuf aLen fuel
            { st with
                mTotalRel := st.mTotalRel + 1
                mRelSample := incAt st.mRelSample
                  (tableAt st.mLastCharOrder (getOrd aBuf i).1)
                mLastCharOrder := (getOrd aBuf i).1 }
            (i + (getOrd aBuf i).2)
      else
        HandleDataLoop getOrd aBuf aLen fuel { st with mLastCharOrder := (getOrd aBuf i).1 }
          (i + (getOrd aBuf i).2)
    else st

/-- Embedding of JapaneseContextAnalysis::HandleData (JpCntx.cpp lines
99-139): a no-op when mDone, otherwise the scan loop starting at offset
mNeedToSkipCharNum. -/
def HandleData (getOrd : List Nat → Nat → Int × Nat) (st : JapaneseContextAnalysis)
    (aBuf : List Nat) : JapaneseContextAnalysis :=
  if st.mDone then st
  else HandleDataLoop getOrd aBuf aBuf.length aBuf.length st st.mNeedToSkipCharNum

/-- Embedding of JapaneseContextAnalysis::Reset (JpCntx.cpp lines 141-150).
Note that the source zeroes mDataThreshold as well. -/
def Reset (st : JapaneseContextAnalysis) : JapaneseContextAnalysis :=
  { st with
      mTotalRel := 0
      mRelSample := List.replicate NUM_OF_CATEGORY 0
      mNeedToSkipCharNum := 0
      mLastCharOrder := -1
      mDone := false
      mDataThreshold := 0 }

/-- The DONT_KNOW sentinel, (float)-1 in JpCntx.cpp line 151. -/
def DONT_KNOW : ℚ := -1

/-- Unsigned 32-bit subtraction, used to model the uint32_t expression
mTotalRel - mRelSample[0] faithfully even when it would wrap. -/
def u32sub (a b : Nat) : Nat := (a % 2^32 + (2^32 - b % 2^32)) % 2^32

/-- Embedding of JapaneseContextAnalysis::GetConfidence (JpCntx.cpp lines
153-160), with the float arithmetic carried out exactly over ℚ. -/
def GetConfidence (st : JapaneseContextAnalysis) : ℚ :=
  if st.mDataThreshold < st.mTotalRel then
    (u32sub st.mTotalRel (st.mRelSample.getD 0 0) : ℚ) / (st.mTotalRel : ℚ)
  else DONT_KNOW

/-- Modelled from the spec: the analyzer is constructed in its reset state
(the constructor lives in JpCntx.h, which is not part of src; the spec says
the state is created empty, all fields zero and lastCharOrder = -1). -/
def initState : JapaneseContextAnalysis :=
  { mTotalRel := 0
    mRelSample := List.replicate NUM_OF_CATEGORY 0
    mNeedToSkipCharNum := 0
    mLastCharOrder := -1
    mDone := false
    mDataThreshold := 0 }

/-- Modelled from the spec: isFinished() reports whether further ingest
calls would have any effect, i.e. the mDone flag (its declaration is in
JpCntx.h, which is not part of src). -/
def isFinished (st : JapaneseContextAnalysis) : Bool := st.mDone

/-- Sum of the six category-histogram entries, as the claims state it. -/
def categorySum (st : JapaneseContextAnalysis) : Nat :=
  ((List.range NUM_OF_CATEGORY).map (fun c => st.mRelSample.getD c 0)).sum


/-- Instrumented copy of the HandleData scan loop that returns the list of
offsets at which GetOrder is invoked, in invocation order; the state is
threaded exactly as in HandleDataLoop. -/
def HandleDataLoopCalls (getOrd : List Nat → Nat → Int × Nat) (aBuf : List Nat) (aLen : Nat) :
    Nat → JapaneseContextAnalysis → Nat → List Nat
  | 0, _, _ => []
  | fuel+1, st, i =>
    if i < aLen then
      i ::
        (if i + (getOrd aBuf i).2 > aLen then
          HandleDataLoopCalls getOrd aBuf aLen fuel
            { st with
                mNeedToSkipCharNum := i + (getOrd aBuf i).2 - aLen
                mLastCharOrder := -1 }
            (i + (getOrd aBuf i).2)
        else if (getOrd aBuf i).1 ≠ -1 ∧ st.mLastCharOrder ≠ -1 then
          if st.mTotalRel + 1 > MAX_REL_THRESHOLD then []
          else
            HandleDataLoopCalls getOrd aBuf aLen fuel
              { st with
                  mTotalRel := st.mTotalRel + 1
                  mRelSample := incAt st.mRelSample
                    (tableAt st.mLastCharOrder (getOrd aBuf i).1)
                  mLastCharOrder := (getOrd aBuf i).1 }
              (i + (getOrd aBuf i).2)
        else
          HandleDataLoopCalls getOrd aBuf aLen fuel { st with mLastCharOrder := (getOrd aBuf i).1 }
            (i + (getOrd aBuf i).2))
    else []

/-- Offsets at which HandleData invokes the order decoder on a chunk. -/
def HandleDataCalls (getOrd : List Nat → Nat → Int × Nat) (st : JapaneseContextAnalysis)
    (aBuf : List Nat) : List Nat :=
  if st.mDone then []
  else HandleDataLoopCalls getOrd aBuf aBuf.length aBuf.length st st.mNeedToSkipCharNum

/-- The state invariant maintained by ingestion: the histogram has six
entries, the relation count equals the histogram sum except that the
relation that trips the threshold is counted only in mTotalRel, and the
relation count is bounded by the threshold constant. -/
def HistInv (st : JapaneseContextAnalysis) : Prop :=
  st.mRelSample.length = NUM_OF_CATEGORY ∧
  st.mTotalRel = st.mRelSample.sum + (if st.mDone then 1 else 0) ∧
  st.mTotalRel ≤ MAX_REL_THRESHOLD + (if st.mDone then 1 else 0)


set_option maxRecDepth 10000

/-! Helper lemmas about the loop embedding. -/

/-- When the scan offset is not below the chunk length the loop does nothing. -/
lemma HandleDataLoop_of_not_lt (getOrd : List Nat → Nat → Int × Nat) (aBuf : List Nat)
    (aLen fuel : Nat) (st : JapaneseContextAnalysis) (i : Nat) (h : ¬ i < aLen) :
    HandleDataLoop getOrd aBuf aLen fuel st i = st := by
  cases fuel <;> simp [HandleDataLoop, h]

/-- HandleData is the identity on a finished analyzer. -/
lemma HandleData_of_done (getOrd : List Nat → Nat → Int × Nat)
    (st : JapaneseContextAnalysis) (aBuf : List Nat) (h : st.mDone = true) :
    HandleData getOrd st aBuf = st := by
  simp [HandleData, h]

/-- The loop never touches mDataThreshold. -/
lemma HandleDataLoop_mDataThreshold (getOrd : List Nat → Nat → Int × Nat) (aBuf : List Nat)
    (aLen : Nat) : ∀ (fuel : Nat) (st : JapaneseContextAnalysis) (i : Nat),
    (HandleDataLoop getOrd aBuf aLen fuel st i).mDataThreshold = st.mDataThreshold := by
  intro fuel
  induction fuel with
  | zero => intro st i; rfl
  | succ n ih =>
    intro st i
    rw [HandleDataLoop]
    split
    · split
      · rw [ih]
      · split
        · split
          · rfl
          · rw [ih]
        · rw [ih]
    · rfl

/-- HandleData never touches mDataThreshold. -/
lemma HandleData_mDataThreshold (getOrd : List Nat → Nat → Int × Nat)
    (st : JapaneseContextAnalysis) (aBuf : List Nat) :
    (HandleData getOrd st aBuf).mDataThreshold = st.mDataThreshold := by
  unfold HandleData
  split
  · rfl
  · rw [HandleDataLoop_mDataThreshold]

/-- C3 (amended): a chunk no longer than the pending skip count leaves the whole
state unchanged: the scan loop never executes, no byte is analyzed, and
mNeedToSkipCharNum keeps its old value s rather than being decremented to
s minus the chunk length; in particular it never underflows. -/
theorem c3_short_chunk_noop (getOrd : List Nat → Nat → Int × Nat)
    (st : JapaneseContextAnalysis) (chunk : List Nat)
    (h : chunk.length ≤ st.mNeedToSkipCharNum) :
    HandleData getOrd st chunk = st := by
  unfold HandleData
  split
  · rfl
  · exact HandleDataLoop_of_not_lt _ _ _ _ _ _ (by omega)

/-- Witness for c3_short_chunk_noop at a concrete state and chunk. -/
theorem c3_short_chunk_noop_witness :
    ([0x41] : List Nat).length ≤
      (⟨0, [0,0,0,0,0,0], 2, -1, false, 0⟩ : JapaneseContextAnalysis).mNeedToSkipCharNum ∧
    HandleData EUCJPContextAnalysis.GetOrder
      (⟨0, [0,0,0,0,0,0], 2, -1, false, 0⟩ : JapaneseContextAnalysis) [0x41]
      = (⟨0, [0,0,0,0,0,0], 2, -1, false, 0⟩ : JapaneseContextAnalysis) :=
  ⟨by decide, c3_short_chunk_noop EUCJPContextAnalysis.GetOrder _ _ (by decide)⟩

/-- C3 counterexample: from the initial state the EUC-JP chunk [0x8f] leaves a
pending skip of 2; feeding the one-byte chunk [0x41] (shorter than the skip)
leaves the skip at 2, not at 2 - 1 = 1 as the claim states. -/
theorem c3_counterexample :
    (HandleData EUCJPContextAnalysis.GetOrder
        (HandleData EUCJPContextAnalysis.GetOrder initState [0x8f]) [0x41]).mNeedToSkipCharNum = 2 ∧
    ¬ (HandleData EUCJPContextAnalysis.GetOrder
        (HandleData EUCJPContextAnalysis.GetOrder initState [0x8f]) [0x41]).mNeedToSkipCharNum = 1 := by
  decide

/-- C6 counterexample: Reset zeroes mDataThreshold, so on a state whose
threshold is MINIMUM_DATA_THRESHOLD = 4 the claim that reset leaves the
threshold unchanged fails. -/
theorem c6_counterexample :
    ¬ (Reset (⟨0, [0,0,0,0,0,0], 0, -1, false, MINIMUM_DATA_THRESHOLD⟩ :
          JapaneseContextAnalysis)).mDataThreshold =
      (⟨0, [0,0,0,0,0,0], 0, -1, false, MINIMUM_DATA_THRESHOLD⟩ :
          JapaneseContextAnalysis).mDataThreshold := by
  decide

/-- C6 (amended): Reset restores mTotalRel = 0, zeroes the six histogram
entries, sets mNeedToSkipCharNum = 0, mLastCharOrder = -1, mDone = false, and
also sets mDataThreshold = 0 (the threshold is not preserved by reset);
ingest itself never alters mDataThreshold. -/
theorem c6_reset (st : JapaneseContextAnalysis) :
    Reset st = initState ∧
    ∀ (getOrd : List Nat → Nat → Int × Nat) (chunk : List Nat),
      (HandleData getOrd st chunk).mDataThreshold = st.mDataThreshold := by
  exact ⟨rfl, fun getOrd chunk => HandleData_mDataThreshold getOrd st chunk⟩

/-- C7: once mDone is true, any further sequence of ingest calls leaves the
entire state unchanged, so the confidence is unchanged and isFinished keeps
reporting true; Reset leaves the Done state. -/
theorem c7_done_terminal (getOrd : List Nat → Nat → Int × Nat)
    (st : JapaneseContextAnalysis) (chunks : List (List Nat)) (h : st.mDone = true) :
    chunks.foldl (HandleData getOrd) st = st ∧
    GetConfidence (chunks.foldl (HandleData getOrd) st) = GetConfidence st ∧
    isFinished (chunks.foldl (HandleData getOrd) st) = true ∧
    isFinished (Reset st) = false := by
  have hfold : chunks.foldl (HandleData getOrd) st = st := by
    induction chunks with
    | nil => rfl
    | cons c cs ih => rw [List.foldl_cons, HandleData_of_done getOrd st c h, ih]
  refine ⟨hfold, by rw [hfold], by rw [hfold]; exact h, rfl⟩

/-- Witness for c7_done_terminal at a concrete finished state. -/
theorem c7_done_terminal_witness :
    (⟨7, [1,2,0,0,4,0], 0, 3, true, 0⟩ : JapaneseContextAnalysis).mDone = true ∧
    ([[0x82, 0xa0], [0x41]] : List (List Nat)).foldl
        (HandleData SJISContextAnalysis.GetOrder)
        (⟨7, [1,2,0,0,4,0], 0, 3, true, 0⟩ : JapaneseContextAnalysis)
      = (⟨7, [1,2,0,0,4,0], 0, 3, true, 0⟩ : JapaneseContextAnalysis) :=
  ⟨by decide,
    (c7_done_terminal SJISContextAnalysis.GetOrder _ [[0x82, 0xa0], [0x41]] (by decide)).1⟩

/-! Histogram invariant machinery. -/

/-- Every entry of the frequency table is below 6. -/
lemma jp2CharContext_entries_lt_six : ∀ r ∈ jp2CharContext, ∀ x ∈ r, x < 6 := by decide

/-- getD either returns a member of the list or the default. -/
lemma getD_mem_or_default {α : Type} (l : List α) (i : Nat) (d : α) :
    l.getD i d ∈ l ∨ l.getD i d = d := by
  induction l generalizing i with
  | nil => right; rfl
  | cons a t ih =>
    cases i with
    | zero => left; simp
    | succ j =>
      rcases ih j with h | h
      · left; simpa using Or.inr h
      · right; simpa using h

/-- Table lookups always produce a category index below 6. -/
lemma tableAt_lt_six (a b : Int) : tableAt a b < 6 := by
  unfold tableAt
  rcases getD_mem_or_default jp2CharContext a.toNat [] with hr | hr
  · rcases getD_mem_or_default (jp2CharContext.getD a.toNat []) b.toNat 0 with hx | hx
    · exact jp2CharContext_entries_lt_six _ hr _ hx
    · omega
  · rw [hr]; simp

/-- Incrementing an in-range entry adds one to the list sum. -/
lemma incAt_sum {l : List Nat} {k : Nat} (h : k < l.length) :
    (incAt l k).sum = l.sum + 1 := by
  induction l generalizing k with
  | nil => simp at h
  | cons a t ih =>
    cases k with
    | zero => simp [incAt]; omega
    | succ j =>
      have hj : j < t.length := by simpa using h
      have ht := ih hj
      simp only [incAt, List.set_cons_succ, List.getD_cons_succ, List.sum_cons] at ht ⊢
      omega

/-- incAt preserves the length. -/
lemma incAt_length (l : List Nat) (k : Nat) : (incAt l k).length = l.length := by
  simp [incAt]

/-- The head entry of a list of naturals is at most the sum. -/
lemma getD_zero_le_sum (l : List Nat) : l.getD 0 0 ≤ l.sum := by
  cases l with
  | nil => simp
  | cons a t => simp [List.sum_cons]

/-- The scan loop preserves the invariant, starting from an unfinished state. -/
lemma HandleDataLoop_HistInv (getOrd : List Nat → Nat → Int × Nat) (aBuf : List Nat)
    (aLen : Nat) : ∀ (fuel : Nat) (st : JapaneseContextAnalysis) (i : Nat),
    st.mDone = false → st.mRelSample.length = NUM_OF_CATEGORY →
    st.mTotalRel = st.mRelSample.sum → st.mTotalRel ≤ MAX_REL_THRESHOLD →
    HistInv (HandleDataLoop getOrd aBuf aLen fuel st i) := by
  intro fuel
  induction fuel with
  | zero =>
    intro st i hd hl hs hb
    exact ⟨hl, by simp [HandleDataLoop, hd, hs], by simp [HandleDataLoop, hd, hb]⟩
  | succ n ih =>
    intro st i hd hl hs hb
    rw [HandleDataLoop]
    split
    · split
      · exact ih _ _ hd hl hs hb
      · split
        · split
          · exact ⟨hl, by simp [hs], by simp; omega⟩
          · have hk : tableAt st.mLastCharOrder (getOrd aBuf i).1 < st.mRelSample.length := by
              rw [hl]; exact tableAt_lt_six _ _
            exact ih _ _ hd (by simpa [incAt_length] using hl)
              (by simp [incAt_sum hk, hs]) (by simp; omega)
        · exact ih _ _ hd hl hs hb
    · exact ⟨hl, by simp [hd, hs], by simp [hd, hb]⟩

/-- HandleData preserves the invariant. -/
lemma HandleData_HistInv (getOrd : List Nat → Nat → Int × Nat)
    (st : JapaneseContextAnalysis) (aBuf : List Nat) (h : HistInv st) :
    HistInv (HandleData getOrd st aBuf) := by
  unfold HandleData
  split
  · exact h
  · rcases h with ⟨hl, hs, hb⟩
    rename_i hd
    simp only [Bool.not_eq_true] at hd
    exact HandleDataLoop_HistInv getOrd aBuf aBuf.length aBuf.length st st.mNeedToSkipCharNum
      hd hl (by simpa [hd] using hs) (by simpa [hd] using hb)

/-- Any state reached from the initial state by a sequence of ingest calls
satisfies the invariant. -/
lemma foldl_HistInv (getOrd : List Nat → Nat → Int × Nat) (chunks : List (List Nat)) :
    HistInv (chunks.foldl (HandleData getOrd) initState) := by
  have h0 : HistInv initState := by
    refine ⟨rfl, by simp [initState], by simp [initState, MAX_REL_THRESHOLD]⟩
  have hgen : ∀ (l : List (List Nat)) (st : JapaneseContextAnalysis), HistInv st →
      HistInv (l.foldl (HandleData getOrd) st) := by
    intro l
    induction l with
    | nil => intro st h; exact h
    | cons c cs ih => intro st h; exact ih _ (HandleData_HistInv getOrd st c h)
  exact hgen chunks initState h0

/-- Over a six-entry list, summing the entries read at indices 0 through 5
gives the list sum. -/
lemma sum_over_range_six (l : List Nat) (h : l.length = 6) :
    ((List.range 6).map (fun c => l.getD c 0)).sum = l.sum := by
  rcases l with _ | ⟨a, l⟩; · simp at h
  rcases l with _ | ⟨b, l⟩; · simp at h
  rcases l with _ | ⟨c, l⟩; · simp at h
  rcases l with _ | ⟨d, l⟩; · simp at h
  rcases l with _ | ⟨e, l⟩; · simp at h
  rcases l with _ | ⟨f, l⟩; · simp at h
  rcases l with _ | ⟨g, l⟩
  · simp [List.range_succ]
  · simp at h

/-- A six-entry histogram sums to the sum over categories 0 through 5. -/
lemma categorySum_eq_sum (st : JapaneseContextAnalysis)
    (h : st.mRelSample.length = NUM_OF_CATEGORY) : categorySum st = st.mRelSample.sum := by
  unfold categorySum NUM_OF_CATEGORY
  exact sum_over_range_six st.mRelSample (by simpa [NUM_OF_CATEGORY] using h)

/-- C1 (amended): after any sequence of ingest calls from the initial state,
the relation count equals the sum of the six histogram entries while the
analyzer is not finished; in the state where mDone has just become true the
relation count exceeds that sum by exactly one, because the relation that
trips MAX_REL_THRESHOLD is counted in mTotalRel but never recorded in the
histogram. -/
theorem c1_total_histogram (getOrd : List Nat → Nat → Int × Nat)
    (chunks : List (List Nat)) :
    (chunks.foldl (HandleData getOrd) initState).mTotalRel =
      categorySum (chunks.foldl (HandleData getOrd) initState) +
        (if (chunks.foldl (HandleData getOrd) initState).mDone then 1 else 0) := by
  obtain ⟨hl, hs, _⟩ := foldl_HistInv getOrd chunks
  rw [categorySum_eq_sum _ hl]
  exact hs

/-- Subtraction below 2^32 agrees with natural subtraction. -/
lemma u32sub_eq {a b : Nat} (hba : b ≤ a) (ha : a < 2^32) : u32sub a b = a - b := by
  have h32 : (2:Nat)^32 = 4294967296 := by norm_num
  unfold u32sub
  rw [h32] at ha ⊢
  omega

/-- C5: in every state reachable from the initial state by ingest calls,
GetConfidence returns the DONT_KNOW sentinel exactly when the relation count
is at most the data threshold (in particular before any data arrives, since
the comparison is strict), and otherwise returns
(mTotalRel - mRelSample[0]) / mTotalRel, a rational in [0, 1]. -/
theorem c5_confidence (getOrd : List Nat → Nat → Int × Nat) (chunks : List (List Nat))
    (st : JapaneseContextAnalysis) (hst : st = chunks.foldl (HandleData getOrd) initState) :
    (GetConfidence st = DONT_KNOW ↔ st.mTotalRel ≤ st.mDataThreshold) ∧
    (st.mDataThreshold < st.mTotalRel →
      GetConfidence st =
          ((st.mTotalRel : ℚ) - (st.mRelSample.getD 0 0 : ℚ)) / (st.mTotalRel : ℚ) ∧
      0 ≤ GetConfidence st ∧ GetConfidence st ≤ 1) := by
  obtain ⟨hl, hs, hb⟩ : HistInv st := hst ▸ foldl_HistInv getOrd chunks
  have h0le : st.mRelSample.getD 0 0 ≤ st.mTotalRel := by
    have := getD_zero_le_sum st.mRelSample
    omega
  have hlt32 : st.mTotalRel < 2^32 := by
    have : MAX_REL_THRESHOLD = 1000 := rfl
    have h32 : (2:Nat)^32 = 4294967296 := by norm_num
    split at hb <;> omega
  have hu : (u32sub st.mTotalRel (st.mRelSample.getD 0 0) : ℚ)
      = (st.mTotalRel : ℚ) - (st.mRelSample.getD 0 0 : ℚ) := by
    rw [u32sub_eq h0le hlt32, Nat.cast_sub h0le]
  constructor
  · constructor
    · intro hc
      by_contra hnot
      push_neg at hnot
      simp only [GetConfidence, if_pos hnot, hu, DONT_KNOW] at hc
      have htpos : (0:ℚ) < (st.mTotalRel : ℚ) := by
        exact_mod_cast Nat.pos_of_ne_zero (by omega)
      have hnum : (0:ℚ) ≤ (st.mTotalRel : ℚ) - (st.mRelSample.getD 0 0 : ℚ) := by
        have : ((st.mRelSample.getD 0 0 : Nat) : ℚ) ≤ (st.mTotalRel : ℚ) := by
          exact_mod_cast h0le
        linarith
      have : (0:ℚ) ≤ ((st.mTotalRel : ℚ) - (st.mRelSample.getD 0 0 : ℚ)) / (st.mTotalRel : ℚ) :=
        div_nonneg hnum (le_of_lt htpos)
      rw [hc] at this
      norm_num at this
    · intro hle
      have hnc : ¬ st.mDataThreshold < st.mTotalRel := by omega
      simp only [GetConfidence, if_neg hnc]
  · intro hgt
    have htpos : (0:ℚ) < (st.mTotalRel : ℚ) := by
      exact_mod_cast Nat.pos_of_ne_zero (by omega)
    have hcast : ((st.mRelSample.getD 0 0 : Nat) : ℚ) ≤ (st.mTotalRel : ℚ) := by
      exact_mod_cast h0le
    have hconf : GetConfidence st =
        ((st.mTotalRel : ℚ) - (st.mRelSample.getD 0 0 : ℚ)) / (st.mTotalRel : ℚ) := by
      simp only [GetConfidence, if_pos hgt, hu]
    refine ⟨hconf, ?_, ?_⟩
    · rw [hconf]
      exact div_nonneg (by linarith) (le_of_lt htpos)
    · rw [hconf, div_le_one htpos]
      have : (0:ℚ) ≤ ((st.mRelSample.getD 0 0 : Nat) : ℚ) := Nat.cast_nonneg _
      linarith

/-- Witness for c5_confidence: after ingesting two consecutive EUC-JP
hiragana characters the threshold comparison is strict and the confidence is
a rational in [0, 1]. -/
theorem c5_confidence_witness :
    (([[0xa4,0xa1,0xa4,0xa1]] : List (List Nat)).foldl
        (HandleData EUCJPContextAnalysis.GetOrder) initState).mDataThreshold <
      (([[0xa4,0xa1,0xa4,0xa1]] : List (List Nat)).foldl
        (HandleData EUCJPContextAnalysis.GetOrder) initState).mTotalRel ∧
    (0:ℚ) ≤ GetConfidence (([[0xa4,0xa1,0xa4,0xa1]] : List (List Nat)).foldl
        (HandleData EUCJPContextAnalysis.GetOrder) initState) ∧
    GetConfidence (([[0xa4,0xa1,0xa4,0xa1]] : List (List Nat)).foldl
        (HandleData EUCJPContextAnalysis.GetOrder) initState) ≤ 1 := by
  have h := (c5_confidence EUCJPContextAnalysis.GetOrder [[0xa4,0xa1,0xa4,0xa1]] _ rfl).2
    (by decide)
  exact ⟨by decide, h.2.1, h.2.2⟩

/-- C8: for every 2-byte buffer, the Shift-JIS order decoder reports a byte
length of 2 exactly when the first byte lies in [0x81, 0x9f] or [0xe0, 0xfc]
and 1 otherwise, and reports the hiragana order secondByte - 0x9f exactly
when the first byte is 0x82 and the second byte lies in [0x9f, 0xf1],
reporting -1 in every other case; the order is always -1 or in 0..82. -/
theorem c8_sjis_getOrder (b0 b1 : Fin 256) :
    ((SJISContextAnalysis.GetOrder [b0.1, b1.1] 0).2 = 2 ↔
      (0x81 ≤ b0.1 ∧ b0.1 ≤ 0x9f) ∨ (0xe0 ≤ b0.1 ∧ b0.1 ≤ 0xfc)) ∧
    ((SJISContextAnalysis.GetOrder [b0.1, b1.1] 0).2 = 1 ↔
      ¬ ((0x81 ≤ b0.1 ∧ b0.1 ≤ 0x9f) ∨ (0xe0 ≤ b0.1 ∧ b0.1 ≤ 0xfc))) ∧
    ((SJISContextAnalysis.GetOrder [b0.1, b1.1] 0).1 =
      if b0.1 = 0x82 ∧ 0x9f ≤ b1.1 ∧ b1.1 ≤ 0xf1 then (b1.1 : Int) - 0x9f else -1) ∧
    ((SJISContextAnalysis.GetOrder [b0.1, b1.1] 0).1 = -1 ∨
      (0 ≤ (SJISContextAnalysis.GetOrder [b0.1, b1.1] 0).1 ∧
        (SJISContextAnalysis.GetOrder [b0.1, b1.1] 0).1 ≤ 82)) := by
  have e2 : (SJISContextAnalysis.GetOrder [b0.1, b1.1] 0).2 =
      if (0x81 ≤ b0.1 ∧ b0.1 ≤ 0x9f) ∨ (0xe0 ≤ b0.1 ∧ b0.1 ≤ 0xfc) then 2 else 1 := rfl
  have e1 : (SJISContextAnalysis.GetOrder [b0.1, b1.1] 0).1 =
      if b0.1 = 0x82 ∧ 0x9f ≤ b1.1 ∧ b1.1 ≤ 0xf1 then (b1.1 : Int) - 0x9f else -1 := rfl
  refine ⟨?_, ?_, e1, ?_⟩
  · rw [e2]; split_ifs with h <;> omega
  · rw [e2]; split_ifs with h <;> omega
  · rw [e1]; split_ifs with h <;> omega

/-- C9: for every 2-byte buffer, the EUC-JP order decoder reports a byte
length of 2 exactly when the first byte is 0x8e or lies in [0xa1, 0xfe], a
byte length of 3 exactly when the first byte is 0x8f, and 1 otherwise, and
reports the hiragana order secondByte - 0xa1 exactly when the first byte is
0xa4 and the second byte lies in [0xa1, 0xf3], reporting -1 in every other
case; the order is always -1 or in 0..82. -/
theorem c9_eucjp_getOrder (b0 b1 : Fin 256) :
    ((EUCJPContextAnalysis.GetOrder [b0.1, b1.1] 0).2 = 2 ↔
      b0.1 = 0x8e ∨ (0xa1 ≤ b0.1 ∧ b0.1 ≤ 0xfe)) ∧
    ((EUCJPContextAnalysis.GetOrder [b0.1, b1.1] 0).2 = 3 ↔ b0.1 = 0x8f) ∧
    ((EUCJPContextAnalysis.GetOrder [b0.1, b1.1] 0).2 = 1 ↔
      ¬ (b0.1 = 0x8e ∨ (0xa1 ≤ b0.1 ∧ b0.1 ≤ 0xfe) ∨ b0.1 = 0x8f)) ∧
    ((EUCJPContextAnalysis.GetOrder [b0.1, b1.1] 0).1 =
      if b0.1 = 0xa4 ∧ 0xa1 ≤ b1.1 ∧ b1.1 ≤ 0xf3 then (b1.1 : Int) - 0xa1 else -1) ∧
    ((EUCJPContextAnalysis.GetOrder [b0.1, b1.1] 0).1 = -1 ∨
      (0 ≤ (EUCJPContextAnalysis.GetOrder [b0.1, b1.1] 0).1 ∧
        (EUCJPContextAnalysis.GetOrder [b0.1, b1.1] 0).1 ≤ 82)) := by
  have e2 : (EUCJPContextAnalysis.GetOrder [b0.1, b1.1] 0).2 =
      if b0.1 = 0x8e ∨ (0xa1 ≤ b0.1 ∧ b0.1 ≤ 0xfe) then 2
      else if b0.1 = 0x8f then 3 else 1 := rfl
  have e1 : (EUCJPContextAnalysis.GetOrder [b0.1, b1.1] 0).1 =
      if b0.1 = 0xa4 ∧ 0xa1 ≤ b1.1 ∧ b1.1 ≤ 0xf3 then (b1.1 : Int) - 0xa1 else -1 := rfl
  refine ⟨?_, ?_, ?_, e1, ?_⟩
  · rw [e2]; split_ifs with h h3 <;> omega
  · rw [e2]; split_ifs with h h3 <;> omega
  · rw [e2]; split_ifs with h h3 <;> omega
  · rw [e1]; split_ifs with h <;> omega

/-- C10 counterexample: the chunk [0x81, 0x82] ends in 0x82, yet the scan
invokes the SJIS decoder only at offset 0 (the final byte is consumed as the
trail byte of the two-byte character starting at 0x81), so the claim that
every chunk ending in 0x82 has the decoder invoked at the final position
fails. -/
theorem c10_counterexample :
    ¬ (1 ∈ HandleDataCalls SJISContextAnalysis.GetOrder initState [0x81, 0x82] ∧
        SJISContextAnalysis.GetOrderOpt [0x81, 0x82] 1 = none) := by
  decide

/-- C10 (amended): there are chunks ending in 0x82 (SJIS) resp. 0xa4
(EUC-JP) on which the scan does invoke the decoder at the final byte
position, and there the decoder dereferences the byte one past the end of
the chunk (none in the Option embedding), because the bounds check i > aLen
happens only after the decoder call: the single-byte chunks [0x82] and
[0xa4] from the initial state witness this. -/
theorem c10_oob_reachable :
    HandleDataCalls SJISContextAnalysis.GetOrder initState [0x82] = [0] ∧
    ([0x82] : List Nat).length = 0 + 1 ∧
    SJISContextAnalysis.GetOrderOpt [0x82] 0 = none ∧
    HandleDataCalls EUCJPContextAnalysis.GetOrder initState [0xa4] = [0] ∧
    ([0xa4] : List Nat).length = 0 + 1 ∧
    EUCJPContextAnalysis.GetOrderOpt [0xa4] 0 = none := by
  decide

/-- C2: after the SJIS chunk [0x81] leaves a pending skip of 1, ingesting
[0x41, 0x41] consumes the skipped byte and ends exactly on the chunk
boundary, yet mNeedToSkipCharNum remains 1 instead of being reset to 0:
HandleData never writes 0 into mNeedToSkipCharNum. -/
theorem c2_skip_not_reset :
    (HandleData SJISContextAnalysis.GetOrder initState [0x81]).mNeedToSkipCharNum = 1 ∧
    (HandleData SJISContextAnalysis.GetOrder
        (HandleData SJISContextAnalysis.GetOrder initState [0x81])
        [0x41, 0x41]).mNeedToSkipCharNum = 1 ∧
    ¬ (HandleData SJISContextAnalysis.GetOrder
        (HandleData SJISContextAnalysis.GetOrder initState [0x81])
        [0x41, 0x41]).mNeedToSkipCharNum = 0 := by
  decide

/-- C4: the same nine-byte EUC-JP stream split at two different points
inside the same three-byte character yields different final confidences
(0 versus the DONT_KNOW sentinel), because the stale mNeedToSkipCharNum
value drops a different number of leading bytes of the third chunk. -/
theorem c4_chunking_divergence :
    ([[0x8f], [0x41, 0x41, 0xa4, 0xa1], [0xa4, 0xa1, 0xa4, 0xa1]] : List (List Nat)).flatten =
      ([[0x8f, 0x41], [0x41, 0xa4, 0xa1], [0xa4, 0xa1, 0xa4, 0xa1]] : List (List Nat)).flatten ∧
    GetConfidence (([[0x8f], [0x41, 0x41, 0xa4, 0xa1], [0xa4, 0xa1, 0xa4, 0xa1]] :
        List (List Nat)).foldl (HandleData EUCJPContextAnalysis.GetOrder) initState) = 0 ∧
    GetConfidence (([[0x8f, 0x41], [0x41, 0xa4, 0xa1], [0xa4, 0xa1, 0xa4, 0xa1]] :
        List (List Nat)).foldl (HandleData EUCJPContextAnalysis.GetOrder) initState)
      = DONT_KNOW ∧
    (0 : ℚ) ≠ DONT_KNOW := by
  refine ⟨by decide, ?_, ?_, by norm_num [DONT_KNOW]⟩
  · have e : ([[0x8f], [0x41, 0x41, 0xa4, 0xa1], [0xa4, 0xa1, 0xa4, 0xa1]] :
        List (List Nat)).foldl (HandleData EUCJPContextAnalysis.GetOrder) initState
        = ⟨1, [1,0,0,0,0,0], 2, 0, false, 0⟩ := by decide
    rw [e]
    norm_num [GetConfidence, u32sub]
  · have e : ([[0x8f, 0x41], [0x41, 0xa4, 0xa1], [0xa4, 0xa1, 0xa4, 0xa1]] :
        List (List Nat)).foldl (HandleData EUCJPContextAnalysis.GetOrder) initState
        = ⟨0, [0,0,0,0,0,0], 1, -1, false, 0⟩ := by decide
    rw [e]
    norm_num [GetConfidence]

/-- One ingest call with two consecutive hiragana characters, starting from a
clean state with k recorded relations, records one more relation while the
threshold has not been reached. -/
lemma eucjp_pair_step (k : Nat) (hk : k + 1 ≤ MAX_REL_THRESHOLD) :
    HandleData EUCJPContextAnalysis.GetOrder
        (⟨k, [k,0,0,0,0,0], 0, 0, false, 0⟩ : JapaneseContextAnalysis) [0xa4, 0xa1]
      = ⟨k+1, [k+1,0,0,0,0,0], 0, 0, false, 0⟩ := by
  have hg : EUCJPContextAnalysis.GetOrder [0xa4, 0xa1] 0 = (0, 2) := by decide
  have ht : tableAt 0 0 = 0 := by decide
  have hnot : ¬ (k + 1 > MAX_REL_THRESHOLD) := by omega
  simp [HandleData, HandleDataLoop, hg, hnot, incAt, ht]

/-- Ingesting k+1 copies of the chunk [0xa4, 0xa1] from the initial state
yields k recorded relations, all in category 0, while k is at most the
threshold. -/
lemma eucjp_replicate_state : ∀ k, k ≤ MAX_REL_THRESHOLD →
    (List.replicate (k+1) ([0xa4, 0xa1] : List Nat)).foldl
        (HandleData EUCJPContextAnalysis.GetOrder) initState
      = ⟨k, [k,0,0,0,0,0], 0, 0, false, 0⟩ := by
  intro k
  induction k with
  | zero => intro _; decide
  | succ n ih =>
    intro hn
    rw [List.replicate_succ', List.foldl_append, ih (by omega)]
    simp only [List.foldl_cons, List.foldl_nil]
    exact eucjp_pair_step n (by omega)

/-- C1 counterexample: after 1002 ingest calls of the EUC-JP chunk
[0xa4, 0xa1] the analyzer has just finished (mDone = true), and the relation
count 1001 differs from the histogram sum 1000: the relation that trips
MAX_REL_THRESHOLD is never recorded in the histogram, refuting the claimed
equality in the state where mDone has just become true. -/
theorem c1_counterexample :
    ((List.replicate 1002 ([0xa4, 0xa1] : List Nat)).foldl
        (HandleData EUCJPContextAnalysis.GetOrder) initState).mDone = true ∧
    ¬ (((List.replicate 1002 ([0xa4, 0xa1] : List Nat)).foldl
          (HandleData EUCJPContextAnalysis.GetOrder) initState).mTotalRel =
        categorySum ((List.replicate 1002 ([0xa4, 0xa1] : List Nat)).foldl
          (HandleData EUCJPContextAnalysis.GetOrder) initState)) := by
  have e : (List.replicate 1002 ([0xa4, 0xa1] : List Nat)).foldl
      (HandleData EUCJPContextAnalysis.GetOrder) initState
      = ⟨1001, [1000,0,0,0,0,0], 0, 0, true, 0⟩ := by
    rw [show (1002 : Nat) = 1001 + 1 from rfl, List.replicate_succ', List.foldl_append,
      show (1001 : Nat) = 1000 + 1 from rfl, eucjp_replicate_state 1000 (by decide)]
    simp only [List.foldl_cons, List.foldl_nil]
    decide
  rw [e]
  decide

/-- The SJIS decoder always reports a character length of at least 1. -/
lemma sjis_charLen_pos (buf : List Nat) (i : Nat) :
    1 ≤ (SJISContextAnalysis.GetOrder buf i).2 := by
  have e2 : (SJISContextAnalysis.GetOrder buf i).2 =
      if (0x81 ≤ getByte buf i ∧ getByte buf i ≤ 0x9f) ∨
         (0xe0 ≤ getByte buf i ∧ getByte buf i ≤ 0xfc) then 2 else 1 := rfl
  rw [e2]; split_ifs <;> omega

/-- The EUC-JP decoder always reports a character length of at least 1. -/
lemma eucjp_charLen_pos (buf : List Nat) (i : Nat) :
    1 ≤ (EUCJPContextAnalysis.GetOrder buf i).2 := by
  have e2 : (EUCJPContextAnalysis.GetOrder buf i).2 =
      if getByte buf i = 0x8e ∨ (0xa1 ≤ getByte buf i ∧ getByte buf i ≤ 0xfe) then 2
      else if getByte buf i = 0x8f then 3 else 1 := rfl
  rw [e2]; split_ifs <;> omega

/-- For any decoder whose character lengths are at least 1 (as both decoders
above are), the result of the scan loop does not depend on the fuel as soon
as the fuel covers the remaining bytes; HandleData passes fuel aLen, which
always suffices, so the fuel device is semantically transparent. -/
lemma HandleDataLoop_fuel (getOrd : List Nat → Nat → Int × Nat)
    (hpos : ∀ buf j, 1 ≤ (getOrd buf j).2) (aBuf : List Nat) (aLen : Nat) :
    ∀ (f1 f2 : Nat) (st : JapaneseContextAnalysis) (i : Nat),
      aLen - i ≤ f1 → aLen - i ≤ f2 →
      HandleDataLoop getOrd aBuf aLen f1 st i = HandleDataLoop getOrd aBuf aLen f2 st i := by
  intro f1
  induction f1 with
  | zero =>
    intro f2 st i h1 h2
    rw [HandleDataLoop_of_not_lt _ _ _ _ _ _ (by omega),
        HandleDataLoop_of_not_lt _ _ _ _ _ _ (by omega)]
  | succ n ih =>
    intro f2 st i h1 h2
    by_cases hi : i < aLen
    · cases f2 with
      | zero => omega
      | succ m =>
        have hc := hpos aBuf i
        rw [HandleDataLoop, HandleDataLoop]
        simp only [if_pos hi]
        split_ifs
        all_goals first
          | rfl
          | exact ih m _ _ (by omega) (by omega)
    · rw [HandleDataLoop_of_not_lt _ _ _ _ _ _ hi, HandleDataLoop_of_not_lt _ _ _ _ _ _ hi]
